import Mathlib

/-!
# Verification of the backend-proxy / mutation layer (`userActions`)

Shallow embedding of `src/actions/userActions.ts` (and of the duplicate
`getUsers` in `lib/api.ts`).  Each server action is modelled as a pure
function from its inputs and the backend's single-fetch outcome to a
trace: the HTTP requests it issued, the side effects it emitted
(`revalidatePath` / `redirect`), and its result (`Except` models a thrown
error versus a returned value).
-/

/-- A JavaScript number restricted to the values arising here: an integer
or `NaN`.  (The page parameter is converted with `Number(...)`; fractional
values never occur in the modelled flows.) -/
inductive JsNum where
  | nan : JsNum
  | num : Int → JsNum
deriving DecidableEq, Repr

/-- JS `x + 1` on a number: `NaN` is absorbing. -/
def JsNum.add1 : JsNum → JsNum
  | .nan => .nan
  | .num n => .num (n + 1)

/-- JS `x >= m`: any comparison with `NaN` is false. -/
def JsNum.geInt : JsNum → Int → Bool
  | .nan, _ => false
  | .num n, m => n ≥ m

/-- JS `x === 0`: false for `NaN`. -/
def JsNum.eqZero : JsNum → Bool
  | .nan => false
  | .num n => n == 0

/-- JS `x || 0`: `NaN` is falsy and becomes `0`; `0 || 0` is still `0`,
so every numeric value is kept. -/
def JsNum.orZero : JsNum → Int
  | .nan => 0
  | .num n => n

/-- String interpolation of a JS number (`NaN` prints as `NaN`). -/
def JsNum.toStr : JsNum → String
  | .nan => "NaN"
  | .num n => toString n

/-- All-digit character list to its decimal value; `none` when empty or
when a non-digit occurs. -/
def digitsToNat (cs : List Char) : Option Nat :=
  if cs = [] then none
  else if cs.all Char.isDigit then
    some (cs.foldl (fun a c => a * 10 + (c.toNat - 48)) 0)
  else none

/-- Optional-sign decimal integer character list to its value. -/
def parseSignedInt (cs : List Char) : Option Int :=
  match cs with
  | '-' :: rest => (digitsToNat rest).map (fun n => -(n : Int))
  | '+' :: rest => (digitsToNat rest).map (fun n => (n : Int))
  | ds => (digitsToNat ds).map (fun n => (n : Int))

/-- Leading and trailing whitespace removed (JS `Number` ignores it). -/
def trimChars (cs : List Char) : List Char :=
  ((cs.dropWhile Char.isWhitespace).reverse.dropWhile Char.isWhitespace).reverse

/-- JS `Number(...)` applied to the (possibly absent) page parameter:
`undefined` gives `NaN`, an empty/whitespace string gives `0`, a signed
decimal integer string gives its value, anything else gives `NaN`.
(Fractional numeric strings are outside the model.) -/
def jsNumber : Option String → JsNum
  | none => .nan
  | some s =>
    let t := trimChars s.data
    if t = [] then .num 0
    else
      match parseSignedInt t with
      | some n => .num n
      | none => .nan

/-- JS truthiness of an optional string field: absent and `""` are falsy. -/
def jsTruthyStr : Option String → Bool
  | none => false
  | some s => s ≠ ""

/-- `const BASE_URL = process.env.BASE_URL || "http://localhost:8080"`
(modelled at its default). -/
def BASE_URL : String := "http://localhost:8080"

/-- A user item as it appears in the paged listing; `getUsers` passes the
items through unchanged. -/
structure User where
  id : String
  name : String
deriving DecidableEq, Repr

/-- A post payload; `getUserPosts` passes the items through unchanged. -/
structure Post where
  id : String
  title : String
  content : String
deriving DecidableEq, Repr

/-- Parsed JSON body of the backend's paged-listing response; every field
may be absent. -/
structure PagedData where
  content : Option (List User)
  totalPages : Option Int
  first : Option Bool
  last : Option Bool
  number : Option Int
deriving DecidableEq, Repr

/-- The record `getUsers` returns.  `pageNumber` is a `JsNum` because the
`lib/api.ts` variant can propagate `NaN` into it. -/
structure PageResult where
  users : List User
  totalPages : Int
  isFirst : Bool
  isLast : Bool
  pageNumber : JsNum
  size : Int
deriving DecidableEq, Repr

/-- Parsed JSON body of the preferences endpoint; `error` is the
application-level error field `getUserPreferences` tests for truthiness. -/
structure PrefPayload where
  error : Option String
  theme : Option String
  language : Option String
  notificationsEnabled : Option Bool
deriving DecidableEq, Repr

/-- The form fields `addUser` reads from its `FormData`. -/
structure AddUserForm where
  username : String
  email : String
  name : String
  roles : List String
deriving DecidableEq, Repr

/-- The `{ success, error }` record `addUser` returns. -/
structure AddUserResult where
  success : Bool
  error : Option String
deriving DecidableEq, Repr

/-- The `"ACTIVE" | "INACTIVE"` status argument of `toggleUserStatus`. -/
inductive UserStatus where
  | ACTIVE : UserStatus
  | INACTIVE : UserStatus
deriving DecidableEq, Repr

def UserStatus.toStr : UserStatus → String
  | .ACTIVE => "ACTIVE"
  | .INACTIVE => "INACTIVE"

/-- Structured rendering of the JSON bodies the layer sends. -/
inductive ReqBody where
  | newUser (username email name : String) (roles : List String) (status : String)
  | setStatus (status : String)
  | newPost (title content : String)
  | defaultPrefs (theme language : String) (notificationsEnabled : Bool)
deriving DecidableEq, Repr

/-- One HTTP request as issued by a `fetch` call. -/
structure HttpRequest where
  method : String
  url : String
  body : Option ReqBody
deriving DecidableEq, Repr

/-- A framework side effect: `revalidatePath` or `redirect`. -/
inductive Effect where
  | revalidatePath (path : String)
  | redirect (path : String)
deriving DecidableEq, Repr

/-- Outcome of the single `fetch` an operation performs: transport failure
(the promise rejects), a non-OK response (status and text body), or an OK
response with its parsed body. -/
inductive Resp (α : Type) where
  | fail : Resp α
  | notOk : Nat → String → Resp α
  | ok : α → Resp α
deriving DecidableEq, Repr

instance {ε α : Type} [DecidableEq ε] [DecidableEq α] : DecidableEq (Except ε α) :=
  fun a b =>
    match a, b with
    | .error e, .error f =>
      if h : e = f then .isTrue (by rw [h]) else .isFalse (fun c => h (by injection c))
    | .error _, .ok _ => .isFalse (fun c => Except.noConfusion c)
    | .ok _, .error _ => .isFalse (fun c => Except.noConfusion c)
    | .ok x, .ok y =>
      if h : x = y then .isTrue (by rw [h]) else .isFalse (fun c => h (by injection c))

/-- What one call to an operation did: the requests issued, the effects
emitted, and the returned value or thrown error. -/
structure ActionTrace (α : Type) where
  requests : List HttpRequest
  effects : List Effect
  result : Except String α
deriving DecidableEq, Repr

/-- `getUsers` from `userActions.ts` (canonical copy).  `searchParams`
is `none` when the argument is absent; `some none` when the object lacks
the `page` key; `some (some s)` when `page` is the string `s`. -/
def getUsers (searchParams : Option (Option String)) (resp : Resp PagedData) :
    ActionTrace PageResult :=
  let pageParam : Option String :=
    match searchParams with
    | none => some "0"
    | some p => p
  let currentPage : Int := (jsNumber pageParam).orZero
  let req : HttpRequest :=
    ⟨"GET", BASE_URL ++ "/api/v1/users?page=" ++ toString currentPage ++ "&size=5", none⟩
  match resp with
  | .fail => ⟨[req], [], .error "fetch failed"⟩
  | .notOk _ _ => ⟨[req], [], .error "Failed to fetch users"⟩
  | .ok data =>
    ⟨[req], [],
      .ok
        { users := data.content.getD []
          totalPages := data.totalPages.getD 1
          isFirst := data.first.getD (currentPage == 0)
          isLast := data.last.getD (decide (currentPage + 1 ≥ data.totalPages.getD 1))
          pageNumber := .num (data.number.getD currentPage)
          size := 5 }⟩

namespace LibApi

/-- `getUsers` from `lib/api.ts` (the duplicate copy): identical except
that `currentPage` is `Number(pageParam)` with no `|| 0` fallback, so a
missing or non-numeric page parameter propagates `NaN`. -/
def getUsers (searchParams : Option (Option String)) (resp : Resp PagedData) :
    ActionTrace PageResult :=
  let pageParam : Option String :=
    match searchParams with
    | none => some "0"
    | some p => p
  let currentPage : JsNum := jsNumber pageParam
  let req : HttpRequest :=
    ⟨"GET", BASE_URL ++ "/api/v1/users?page=" ++ currentPage.toStr ++ "&size=5", none⟩
  match resp with
  | .fail => ⟨[req], [], .error "fetch failed"⟩
  | .notOk _ _ => ⟨[req], [], .error "Failed to fetch users"⟩
  | .ok data =>
    ⟨[req], [],
      .ok
        { users := data.content.getD []
          totalPages := data.totalPages.getD 1
          isFirst := data.first.getD currentPage.eqZero
          isLast := data.last.getD (currentPage.add1.geInt (data.totalPages.getD 1))
          pageNumber :=
            match data.number with
            | some n => .num n
            | none => currentPage
          size := 5 }⟩

end LibApi

/-- `deleteUserFromHome`: validates the id locally, DELETEs, revalidates
`/users` on success; no redirect. -/
def deleteUserFromHome (id : String) (resp : Resp Unit) : ActionTrace Unit :=
  if id = "" then ⟨[], [], .error "User ID required"⟩
  else
    let req : HttpRequest := ⟨"DELETE", BASE_URL ++ "/api/v1/users/" ++ id, none⟩
    match resp with
    | .fail => ⟨[req], [], .error "fetch failed"⟩
    | .notOk status _ => ⟨[req], [], .error ("Delete failed (" ++ toString status ++ ")")⟩
    | .ok _ => ⟨[req], [.revalidatePath "/users"], .ok ()⟩

/-- `deleteUser`: like `deleteUserFromHome` plus a redirect to the first
listing page on success. -/
def deleteUser (id : String) (resp : Resp Unit) : ActionTrace Unit :=
  if id = "" then ⟨[], [], .error "User ID required"⟩
  else
    let req : HttpRequest := ⟨"DELETE", BASE_URL ++ "/api/v1/users/" ++ id, none⟩
    match resp with
    | .fail => ⟨[req], [], .error "fetch failed"⟩
    | .notOk status _ => ⟨[req], [], .error ("Delete failed (" ++ toString status ++ ")")⟩
    | .ok _ => ⟨[req], [.revalidatePath "/users", .redirect "/users?page=0"], .ok ()⟩

/-- `getUserPreferences`: null on non-OK, transport failure, or a truthy
`error` field in an OK payload; otherwise the payload itself. -/
def getUserPreferences (id : String) (resp : Resp PrefPayload) :
    ActionTrace (Option PrefPayload) :=
  let req : HttpRequest :=
    ⟨"GET", BASE_URL ++ "/api/v1/users/" ++ id ++ "/preferences", none⟩
  match resp with
  | .fail => ⟨[req], [], .ok none⟩
  | .notOk _ _ => ⟨[req], [], .ok none⟩
  | .ok data =>
    if jsTruthyStr data.error then ⟨[req], [], .ok none⟩
    else ⟨[req], [], .ok (some data)⟩

/-- `getUserPosts`: empty list on non-OK or transport failure, the parsed
payload on OK. -/
def getUserPosts (id : String) (resp : Resp (List Post)) : ActionTrace (List Post) :=
  let req : HttpRequest :=
    ⟨"GET", BASE_URL ++ "/api/v1/users/" ++ id ++ "/posts", none⟩
  match resp with
  | .fail => ⟨[req], [], .ok []⟩
  | .notOk _ _ => ⟨[req], [], .ok []⟩
  | .ok posts => ⟨[req], [], .ok posts⟩

/-- `addUser`: one POST with the form fields and `status:"ACTIVE"`; the
try/catch converts every failure into `{ success:false, error:"Failed to
add user" }`, so it never throws. -/
def addUser (form : AddUserForm) (resp : Resp Unit) : ActionTrace AddUserResult :=
  let req : HttpRequest :=
    ⟨"POST", BASE_URL ++ "/api/v1/users",
      some (.newUser form.username form.email form.name form.roles "ACTIVE")⟩
  match resp with
  | .fail => ⟨[req], [], .ok ⟨false, some "Failed to add user"⟩⟩
  | .notOk _ _ => ⟨[req], [], .ok ⟨false, some "Failed to add user"⟩⟩
  | .ok _ => ⟨[req], [.revalidatePath "/users"], .ok ⟨true, none⟩⟩

/-- `toggleUserStatus`: no local id validation; PATCH with `{status}`,
revalidate `/users` and return the updated user on OK, throw otherwise. -/
def toggleUserStatus (id : String) (status : UserStatus) (resp : Resp User) :
    ActionTrace User :=
  let req : HttpRequest :=
    ⟨"PATCH", BASE_URL ++ "/api/v1/users/" ++ id, some (.setStatus status.toStr)⟩
  match resp with
  | .fail => ⟨[req], [], .error "fetch failed"⟩
  | .notOk _ t => ⟨[req], [], .error ("Failed to update status: " ++ t)⟩
  | .ok u => ⟨[req], [.revalidatePath "/users"], .ok u⟩

/-- `createUserPost`: POST the post body; on OK revalidate the user's own
page; the catch block re-throws, so failures still propagate. -/
def createUserPost (userId title content : String) (resp : Resp Unit) :
    ActionTrace Bool :=
  let req : HttpRequest :=
    ⟨"POST", BASE_URL ++ "/api/v1/users/" ++ userId ++ "/posts",
      some (.newPost title content)⟩
  match resp with
  | .fail => ⟨[req], [], .error "fetch failed"⟩
  | .notOk _ _ => ⟨[req], [], .error "Failed to create post"⟩
  | .ok _ => ⟨[req], [.revalidatePath ("/users/" ++ userId)], .ok true⟩

/-- `softDeletePost`: DELETE on the posts endpoint; on OK it revalidates
the literal path `"/users/"` (listing path with a trailing slash). -/
def softDeletePost (postId : String) (resp : Resp Unit) : ActionTrace Bool :=
  let req : HttpRequest := ⟨"DELETE", BASE_URL ++ "/api/v1/posts/" ++ postId, none⟩
  match resp with
  | .fail => ⟨[req], [], .error "fetch failed"⟩
  | .notOk status _ => ⟨[req], [], .error ("Failed to delete post (" ++ toString status ++ ")")⟩
  | .ok _ => ⟨[req], [.revalidatePath "/users/"], .ok true⟩

/-- `createDefaultPreferences`: PUT the fixed default body; on OK
revalidate the user's own page and return the created payload. -/
def createDefaultPreferences (userId : String) (resp : Resp PrefPayload) :
    ActionTrace PrefPayload :=
  let req : HttpRequest :=
    ⟨"PUT", BASE_URL ++ "/api/v1/users/" ++ userId ++ "/preferences",
      some (.defaultPrefs "light" "en" true)⟩
  match resp with
  | .fail => ⟨[req], [], .error "fetch failed"⟩
  | .notOk status _ =>
    ⟨[req], [], .error ("Failed to create default preferences (" ++ toString status ++ ")")⟩
  | .ok d => ⟨[req], [.revalidatePath ("/users/" ++ userId)], .ok d⟩

example : jsNumber (some "0") = .num 0 := by decide
example : jsNumber (some "abc") = .nan := by decide
example : jsNumber none = .nan := by decide
example : jsNumber (some "12") = .num 12 := by decide
example :
    (getUsers (some (some "0"))
        (.ok ⟨some [⟨"1", "A"⟩], some 2, some true, some false, some 0⟩)).result =
      .ok ⟨[⟨"1", "A"⟩], 2, true, false, .num 0, 5⟩ := by decide

/-- C1 as stated is false: when the backend omits `last` but returns a
`number` different from the requested page, `isLast` is computed from the
requested page, not from `pageNumber`.  For page 0 with response
`{totalPages:3, number:5}` the result has `pageNumber = 5` and
`isLast = false`, yet `pageNumber + 1 >= totalPages` is true. -/
theorem C1_isLast_uses_requested_page :
    (getUsers (some (some "0")) (.ok ⟨none, some 3, none, none, some 5⟩)).result =
      .ok ⟨[], 3, true, false, .num 5, 5⟩ ∧
    (JsNum.num 5).add1.geInt 3 = true := by decide

/-- C1 amended: for every page parameter denoting an index `p ≥ 0` and
every OK backend response, `getUsers` returns `users` = the response's
`content` (empty when absent), `totalPages` = its `totalPages` (1 when
absent), `pageNumber` = its `number` (`p` when absent), `size` = 5,
`isFirst` = its `first` (`p == 0` when absent), and, when `last` is
absent, `isLast = (p + 1 >= totalPages)` computed from the requested
index `p` (not from `pageNumber`). -/
theorem C1_paged_normalization (s : String) (p : Int) (d : PagedData)
    (_hp : 0 ≤ p) (hs : jsNumber (some s) = .num p) :
    (getUsers (some (some s)) (.ok d)).result =
      .ok
        { users := d.content.getD []
          totalPages := d.totalPages.getD 1
          isFirst := d.first.getD (p == 0)
          isLast := d.last.getD (decide (p + 1 ≥ d.totalPages.getD 1))
          pageNumber := .num (d.number.getD p)
          size := 5 } := by
  simp [getUsers, hs, JsNum.orZero]

/-- C1 witness: the spec's own scenario at page 0. -/
theorem C1_paged_normalization_scenario :
    (0 : Int) ≤ 0 ∧ jsNumber (some "0") = .num 0 ∧
    (getUsers (some (some "0"))
        (.ok ⟨some [⟨"1", "A"⟩], some 2, some true, some false, some 0⟩)).result =
      .ok ⟨[⟨"1", "A"⟩], 2, true, false, .num 0, 5⟩ :=
  ⟨by decide, by decide,
    C1_paged_normalization "0" 0
      ⟨some [⟨"1", "A"⟩], some 2, some true, some false, some 0⟩
      (by decide) (by decide)⟩

/-- C2 as stated is false for the post-scoped mutation `softDeletePost`:
on success it signals invalidation of the literal path `"/users/"`
(trailing slash), which is neither `"/users"` nor `"/users/{id}"`. -/
theorem C2_softDeletePost_path :
    (softDeletePost "p1" (.ok ())).effects = [.revalidatePath "/users/"] ∧
    Effect.revalidatePath "/users/" ≠ .revalidatePath "/users" ∧
    Effect.revalidatePath "/users/" ≠ .revalidatePath "/users/p1" := by decide

/-- C2 amended: on an OK backend response, each mutating operation signals
cache invalidation for exactly one path: `"/users"` for the user-scoped
mutations (`addUser`, `deleteUser` — which additionally redirects —,
`deleteUserFromHome`, `toggleUserStatus`), `"/users/{id}"` for
`createUserPost` and `createDefaultPreferences`, and the literal
`"/users/"` for `softDeletePost`. -/
theorem C2_revalidation_paths (form : AddUserForm) (id uid title content pid : String)
    (st : UserStatus) (u : User) (pref : PrefPayload) (hid : id ≠ "") :
    (addUser form (.ok ())).effects = [.revalidatePath "/users"] ∧
    (deleteUser id (.ok ())).effects =
      [.revalidatePath "/users", .redirect "/users?page=0"] ∧
    (deleteUserFromHome id (.ok ())).effects = [.revalidatePath "/users"] ∧
    (toggleUserStatus id st (.ok u)).effects = [.revalidatePath "/users"] ∧
    (createUserPost uid title content (.ok ())).effects =
      [.revalidatePath ("/users/" ++ uid)] ∧
    (softDeletePost pid (.ok ())).effects = [.revalidatePath "/users/"] ∧
    (createDefaultPreferences uid (.ok pref)).effects =
      [.revalidatePath ("/users/" ++ uid)] := by
  refine ⟨rfl, ?_, ?_, rfl, rfl, rfl, rfl⟩ <;> simp [deleteUser, deleteUserFromHome, hid]

/-- C2 witness at concrete inputs. -/
theorem C2_revalidation_paths_concrete :
    ("1" : String) ≠ "" ∧
    (addUser ⟨"u", "e", "n", []⟩ (.ok ())).effects = [.revalidatePath "/users"] ∧
    (deleteUser "1" (.ok ())).effects =
      [.revalidatePath "/users", .redirect "/users?page=0"] ∧
    (deleteUserFromHome "1" (.ok ())).effects = [.revalidatePath "/users"] ∧
    (toggleUserStatus "1" .ACTIVE (.ok ⟨"1", "A"⟩)).effects = [.revalidatePath "/users"] ∧
    (createUserPost "2" "t" "c" (.ok ())).effects = [.revalidatePath ("/users/" ++ "2")] ∧
    (softDeletePost "p" (.ok ())).effects = [.revalidatePath "/users/"] ∧
    (createDefaultPreferences "2" (.ok ⟨none, none, none, none⟩)).effects =
      [.revalidatePath ("/users/" ++ "2")] :=
  ⟨by decide,
    C2_revalidation_paths ⟨"u", "e", "n", []⟩ "1" "2" "t" "c" "p" .ACTIVE ⟨"1", "A"⟩
      ⟨none, none, none, none⟩ (by decide)⟩

/-- C3 as stated is false: the code tests the `error` field for JS
truthiness, so an OK payload whose `error` field is present but the empty
string is returned unchanged, not turned into the absence-marker. -/
theorem C3_falsy_error_field :
    (getUserPreferences "1" (.ok ⟨some "", some "dark", none, none⟩)).result =
      .ok (some ⟨some "", some "dark", none, none⟩) ∧
    Except.ok (some (⟨some "", some "dark", none, none⟩ : PrefPayload)) ≠
      (.ok none : Except String (Option PrefPayload)) := by decide

/-- C3 amended: for every id, `getUserPreferences` returns the
absence-marker (null) and never raises when the backend responds non-OK,
when the transport fails, and when an OK payload carries a truthy
(present, non-empty) `error` field; otherwise — including a present but
empty `error` field — it returns the parsed payload unchanged. -/
theorem C3_preferences_absence (id : String) (status : Nat) (text : String)
    (d : PrefPayload) :
    (getUserPreferences id .fail).result = .ok none ∧
    (getUserPreferences id (.notOk status text)).result = .ok none ∧
    (getUserPreferences id (.ok d)).result =
      (if jsTruthyStr d.error then .ok none else .ok (some d)) := by
  refine ⟨rfl, rfl, ?_⟩
  by_cases h : jsTruthyStr d.error <;> simp [getUserPreferences, h]

/-- C4: `addUser` issues exactly one POST with the form fields and
`status:"ACTIVE"`, returns `{success:true}` on OK and
`{success:false, error:"Failed to add user"}` on non-OK or transport
failure, and never raises. -/
theorem C4_addUser_outcome (form : AddUserForm) (status : Nat) (text : String)
    (resp : Resp Unit) :
    (addUser form resp).requests =
      [⟨"POST", BASE_URL ++ "/api/v1/users",
        some (.newUser form.username form.email form.name form.roles "ACTIVE")⟩] ∧
    (addUser form (.ok ())).result = .ok ⟨true, none⟩ ∧
    (addUser form (.notOk status text)).result = .ok ⟨false, some "Failed to add user"⟩ ∧
    (addUser form .fail).result = .ok ⟨false, some "Failed to add user"⟩ ∧
    (addUser form resp).result.isOk = true := by
  cases resp <;> exact ⟨rfl, rfl, rfl, rfl, rfl⟩

/-- C5: when the page parameter is absent (no argument, or an object
without the `page` key) or is a non-numeric string, `getUsers` behaves
exactly as it does for page `"0"`: same request URL, same fallback
values, same trace. -/
theorem C5_default_page (resp : Resp PagedData) (s : String)
    (hs : jsNumber (some s) = .nan) :
    getUsers none resp = getUsers (some (some "0")) resp ∧
    getUsers (some none) resp = getUsers (some (some "0")) resp ∧
    getUsers (some (some s)) resp = getUsers (some (some "0")) resp := by
  have h0 : jsNumber (some "0") = .num 0 := by decide
  have hnone : jsNumber none = .nan := rfl
  refine ⟨rfl, ?_, ?_⟩ <;> simp only [getUsers, hs, h0, hnone, JsNum.orZero]

/-- C5 witness at the non-numeric page string `"abc"`. -/
theorem C5_default_page_nonnumeric :
    jsNumber (some "abc") = .nan ∧
    getUsers (some (some "abc")) (.ok ⟨none, none, none, none, none⟩) =
      getUsers (some (some "0")) (.ok ⟨none, none, none, none, none⟩) :=
  ⟨by decide,
    (C5_default_page (.ok ⟨none, none, none, none, none⟩) "abc" (by decide)).2.2⟩

/-- C6: with the empty-string id, both delete variants raise the local
validation error `"User ID required"` and issue no request and no
effect, whatever the backend would have answered. -/
theorem C6_delete_requires_id (resp : Resp Unit) :
    deleteUser "" resp = ⟨[], [], .error "User ID required"⟩ ∧
    deleteUserFromHome "" resp = ⟨[], [], .error "User ID required"⟩ := by
  constructor <;> simp [deleteUser, deleteUserFromHome]

/-- C7 as stated is false: for the non-numeric page parameter `"abc"`
and an OK response with every field absent, the canonical `getUsers`
falls back to page 0 (`isFirst = true`, `isLast = true`,
`pageNumber = 0`) while the `lib/api.ts` copy propagates `NaN`
(`isFirst = false`, `isLast = false`, `pageNumber = NaN`). -/
theorem C7_nonnumeric_page_divergence :
    (getUsers (some (some "abc")) (.ok ⟨none, none, none, none, none⟩)).result =
      .ok ⟨[], 1, true, true, .num 0, 5⟩ ∧
    (LibApi.getUsers (some (some "abc")) (.ok ⟨none, none, none, none, none⟩)).result =
      .ok ⟨[], 1, false, false, .nan, 5⟩ ∧
    (⟨[], 1, true, true, .num 0, 5⟩ : PageResult) ≠ ⟨[], 1, false, false, .nan, 5⟩ := by
  decide

/-- C7 amended: the two `getUsers` copies agree (same request, same
effects, same result) for every backend response whenever the
`searchParams` argument is absent altogether or the page parameter is a
numeric string; they diverge when the `page` key is missing from the
object or non-numeric, where only the canonical copy falls back to 0. -/
theorem C7_duplicate_agreement (resp : Resp PagedData) (s : String) (n : Int)
    (hs : jsNumber (some s) = .num n) :
    LibApi.getUsers none resp = getUsers none resp ∧
    LibApi.getUsers (some (some s)) resp = getUsers (some (some s)) resp := by
  have h0 : jsNumber (some "0") = .num 0 := by decide
  refine ⟨?_, ?_⟩ <;>
    · cases resp with
      | fail => simp only [getUsers, LibApi.getUsers, h0, hs, JsNum.orZero, JsNum.toStr]
      | notOk a b => simp only [getUsers, LibApi.getUsers, h0, hs, JsNum.orZero, JsNum.toStr]
      | ok d =>
        rcases d with ⟨c, tp, f, l, num⟩
        cases num <;>
          simp [getUsers, LibApi.getUsers, h0, hs, JsNum.orZero, JsNum.toStr,
            JsNum.eqZero, JsNum.add1, JsNum.geInt]

/-- C7 witness: agreement at the numeric page string `"7"` on an OK
response. -/
theorem C7_duplicate_agreement_page7 :
    jsNumber (some "7") = .num 7 ∧
    LibApi.getUsers (some (some "7")) (.ok ⟨none, some 9, none, none, none⟩) =
      getUsers (some (some "7")) (.ok ⟨none, some 9, none, none, none⟩) :=
  ⟨by decide,
    (C7_duplicate_agreement (.ok ⟨none, some 9, none, none, none⟩) "7" 7 (by decide)).2⟩

/-- C8: `getUserPosts` returns the empty list — an `ok` value, never a
thrown error and never an absence-marker — on transport failure or a
non-OK response, and the parsed payload on OK. -/
theorem C8_posts_empty_on_failure (id : String) (status : Nat) (text : String)
    (posts : List Post) :
    (getUserPosts id .fail).result = .ok [] ∧
    (getUserPosts id (.notOk status text)).result = .ok [] ∧
    (getUserPosts id (.ok posts)).result = .ok posts :=
  ⟨rfl, rfl, rfl⟩

/-- C9: on a non-OK response or a transport failure, no mutating
operation emits any effect — every `revalidatePath`/`redirect` is
sequenced strictly after the OK check. -/
theorem C9_no_effects_on_failure (form : AddUserForm)
    (id uid title content pid text : String) (st : UserStatus) (status : Nat) :
    (addUser form (.notOk status text)).effects = [] ∧
    (addUser form .fail).effects = [] ∧
    (deleteUser id (.notOk status text)).effects = [] ∧
    (deleteUser id .fail).effects = [] ∧
    (deleteUserFromHome id (.notOk status text)).effects = [] ∧
    (deleteUserFromHome id .fail).effects = [] ∧
    (toggleUserStatus id st (.notOk status text)).effects = [] ∧
    (toggleUserStatus id st .fail).effects = [] ∧
    (createUserPost uid title content (.notOk status text)).effects = [] ∧
    (createUserPost uid title content .fail).effects = [] ∧
    (softDeletePost pid (.notOk status text)).effects = [] ∧
    (softDeletePost pid .fail).effects = [] ∧
    (createDefaultPreferences uid (.notOk status text)).effects = [] ∧
    (createDefaultPreferences uid .fail).effects = [] := by
  by_cases h : id = "" <;>
    simp [addUser, deleteUser, deleteUserFromHome, toggleUserStatus, createUserPost,
      softDeletePost, createDefaultPreferences, h]

/-- Helper: the status-toggle failure message can never collide with the
delete-validation message, whatever the backend error text. -/
theorem toggle_msg_ne (t : String) :
    ("Failed to update status: " ++ t : String) ≠ "User ID required" := by
  intro h
  have h2 : ("Failed to update status: " ++ t).data.length =
      "User ID required".data.length := by rw [h]
  rcases t with ⟨cs⟩
  have h3 : ("Failed to update status: " ++ String.mk cs).data =
      "Failed to update status: ".data ++ cs := rfl
  rw [h3, List.length_append] at h2
  have h4 : "Failed to update status: ".data.length = 25 := by decide
  have h5 : "User ID required".data.length = 16 := by decide
  omega

/-- C10: `toggleUserStatus` performs no local id validation: with the
empty id it still issues one PATCH, to the collection path
`BASE_URL ++ "/api/v1/users/"`, with the status body, and never raises
the `"User ID required"` validation error — unlike `deleteUser`, which
with the empty id issues no request and raises exactly that error. -/
theorem C10_toggle_skips_validation (st : UserStatus) (resp : Resp User) (u : User)
    (dresp : Resp Unit) :
    (toggleUserStatus "" st resp).requests =
      [⟨"PATCH", BASE_URL ++ "/api/v1/users/", some (.setStatus st.toStr)⟩] ∧
    (toggleUserStatus "" st resp).result ≠ .error "User ID required" ∧
    (toggleUserStatus "" st (.ok u)).result = .ok u ∧
    (deleteUser "" dresp).requests = [] ∧
    (deleteUser "" dresp).result = .error "User ID required" := by
  have hurl : BASE_URL ++ "/api/v1/users/" ++ "" = BASE_URL ++ "/api/v1/users/" := by
    decide
  refine ⟨?_, ?_, rfl, ?_, ?_⟩
  · cases resp <;> simp [toggleUserStatus, hurl]
  · cases resp with
    | fail => cases st <;> decide
    | notOk a t =>
      intro h
      exact toggle_msg_ne t (by injection h)
    | ok v => simp [toggleUserStatus]
  · simp [deleteUser]
  · simp [deleteUser]
